import Mathlib

/-!
Verification of the billing & payment reconciliation engine of the
`bdb-backend` legal-practice management service.

The definitions below are a shallow embedding of the JavaScript source:

* the line-item totals reduce of `createBilling` / `updateBilling`
  (`src/controller/admin/billing/BillingController.js`),
* the payment ledger (`PaymentController.js`),
* the billing sequence number generator (`src/services/BillingService.js`),
* the `BillingHistory` / `Payment` mongoose schemas.

JavaScript numbers are modelled as exact rationals (`ℚ`); the separate
`JSVal` model below captures `NaN` / `undefined` propagation where a claim
is about missing fields.  Database state is explicit: a record of lists,
with mongoose calls (`findById`, `findOne`, `aggregate $sum`,
`findByIdAndUpdate` with `runValidators`) modelled as list operations.
Thrown `AppError`s become `Except.error`; every `throw` in the modelled
paths happens before any database write, so an error result leaves the
store untouched.
-/

namespace BDB

/-- A billing line item as consumed by the totals reduce
(`quantity`, `price`, `discount` %, `vat` %), all numeric. -/
structure LineItem where
  quantity : ℚ
  price : ℚ
  discount : ℚ
  vat : ℚ
deriving DecidableEq, Repr

/-- The accumulator shape of the `reduce` in `createBilling`/`updateBilling`:
`{ subTotal, tax, discount, grandTotal }`. -/
structure Totals where
  subTotal : ℚ
  tax : ℚ
  discount : ℚ
  grandTotal : ℚ
deriving DecidableEq, Repr

/-- `let calculatedTotals = { subTotal: 0, tax: 0, discount: 0, grandTotal: 0 }`. -/
def initialTotals : Totals := ⟨0, 0, 0, 0⟩

/-- One step of the reduce in `createBilling` (part_007 lines 616-627):
```
const itemTotal = item.quantity * item.price;
const itemDiscount = (itemTotal * item.discount) / 100;
const itemVat = ((itemTotal - itemDiscount) * item.vat) / 100;
return { subTotal: acc.subTotal + itemTotal,
         tax: acc.tax + itemVat,
         discount: acc.discount + itemDiscount,
         grandTotal: acc.grandTotal + (itemTotal - itemDiscount + itemVat) };
```
-/
def addItem (acc : Totals) (item : LineItem) : Totals :=
  let itemTotal := item.quantity * item.price
  let itemDiscount := itemTotal * item.discount / 100
  let itemVat := (itemTotal - itemDiscount) * item.vat / 100
  { subTotal := acc.subTotal + itemTotal
    tax := acc.tax + itemVat
    discount := acc.discount + itemDiscount
    grandTotal := acc.grandTotal + (itemTotal - itemDiscount + itemVat) }

/-- `items.reduce(..., { subTotal: 0, tax: 0, discount: 0, grandTotal: 0 })`. -/
def calculatedTotals (items : List LineItem) : Totals :=
  items.foldl addItem initialTotals

/-- Per-item total as worded by the spec: `itemTotal = quantity * price`. -/
def itemTotalSpec (i : LineItem) : ℚ := i.quantity * i.price

/-- Per-item discount as worded by the spec:
`itemDiscount = itemTotal * (discount / 100)`. -/
def itemDiscountSpec (i : LineItem) : ℚ := itemTotalSpec i * (i.discount / 100)

/-- Per-item vat as worded by the spec:
`itemVat = (itemTotal - itemDiscount) * (vat / 100)`. -/
def itemVatSpec (i : LineItem) : ℚ :=
  (itemTotalSpec i - itemDiscountSpec i) * (i.vat / 100)

/-- Per-item amount as worded by the spec:
`itemAmount = itemTotal - itemDiscount + itemVat`. -/
def itemAmountSpec (i : LineItem) : ℚ :=
  itemTotalSpec i - itemDiscountSpec i + itemVatSpec i

/-- The reference fold from the spec: each aggregate is the sum of the
corresponding per-item figure over all items. -/
def specTotals (items : List LineItem) : Totals :=
  { subTotal := (items.map itemTotalSpec).sum
    tax := (items.map itemVatSpec).sum
    discount := (items.map itemDiscountSpec).sum
    grandTotal := (items.map itemAmountSpec).sum }

theorem foldl_addItem (l : List LineItem) (a : Totals) :
    l.foldl addItem a =
      { subTotal := a.subTotal + (l.map itemTotalSpec).sum
        tax := a.tax + (l.map itemVatSpec).sum
        discount := a.discount + (l.map itemDiscountSpec).sum
        grandTotal := a.grandTotal + (l.map itemAmountSpec).sum } := by
  induction l generalizing a with
  | nil => simp
  | cons x t ih =>
    simp only [List.foldl_cons, List.map_cons, List.sum_cons, ih]
    simp only [addItem, itemTotalSpec, itemDiscountSpec, itemVatSpec, itemAmountSpec]
    refine Totals.mk.injEq .. ▸ ⟨by ring, by ring, by ring, by ring⟩

theorem calculatedTotals_eq_specTotals (items : List LineItem) :
    calculatedTotals items = specTotals items := by
  simp [calculatedTotals, foldl_addItem, initialTotals, specTotals]

/-- C1: the totals computation of `createBilling` equals the reference fold
(per item `itemTotal = quantity * price`, `itemDiscount = itemTotal * (discount/100)`,
`itemVat = (itemTotal - itemDiscount) * (vat/100)`,
`itemAmount = itemTotal - itemDiscount + itemVat`, the aggregates being the sums
over all items); the empty list yields all four aggregates zero; and the single
item `{quantity: 2, price: 100, discount: 10, vat: 12}` yields
`grandTotal = 201.6 = 1008/5` (with `subTotal = 200`, `tax = 21.6`, `discount = 20`). -/
theorem calculatedTotals_correct (items : List LineItem) :
    calculatedTotals items = specTotals items ∧
      calculatedTotals [] = { subTotal := 0, tax := 0, discount := 0, grandTotal := 0 } ∧
      calculatedTotals [{ quantity := 2, price := 100, discount := 10, vat := 12 }] =
        { subTotal := 200, tax := 108 / 5, discount := 20, grandTotal := 1008 / 5 } := by
  refine ⟨calculatedTotals_eq_specTotals items, rfl, ?_⟩
  simp only [calculatedTotals_eq_specTotals, specTotals, itemTotalSpec, itemDiscountSpec,
    itemVatSpec, itemAmountSpec, List.map_cons, List.map_nil, List.sum_cons, List.sum_nil]
  norm_num

/-- C8: the grand total computed by the `createBilling` reduce is additive over
list concatenation, exactly, in exact rational arithmetic. -/
theorem grandTotal_additive (l1 l2 : List LineItem) :
    (calculatedTotals (l1 ++ l2)).grandTotal =
      (calculatedTotals l1).grandTotal + (calculatedTotals l2).grandTotal := by
  simp [calculatedTotals_eq_specTotals, specTotals]

/-! ### Schemas and database state -/

/-- `status` enum of the `BillingHistory` mongoose schema
(`src/model/BillingHistory.js`):
`["unpaid", "paid", "partiallyPaid", "overdue", "overPaid"]`.
`findByIdAndUpdate` with `runValidators: true` rejects any other value. -/
def statusEnum : List String := ["unpaid", "paid", "partiallyPaid", "overdue", "overPaid"]

/-- `paymentMethod` rule of `createPayment`:
`in:cash,bank_transfer,cheque,credit_card,other`. -/
def paymentMethods : List String := ["cash", "bank_transfer", "cheque", "credit_card", "other"]

/-- A stored `BillingHistory` document (fields relevant to the billing core;
identifiers are numbers, dates are integers). -/
structure BillingRecord where
  id : ℕ
  caseRef : ℕ
  client : ℕ
  billingType : String
  title : Option String
  billNumber : List Char
  note : Option String
  billingStart : Option Int
  billingEnd : Option Int
  dueDate : Option Int
  items : List LineItem
  subTotal : ℚ
  tax : ℚ
  discount : ℚ
  grandTotal : ℚ
  paidAmount : ℚ
  createdBy : ℕ
  status : String
deriving DecidableEq, Repr

/-- A stored `Payment` document. -/
structure Payment where
  id : ℕ
  billing : ℕ
  amount : ℚ
  date : Int
  paymentMethod : String
  note : Option String
  transactionId : Option String
  receipt : Option String
  receivedBy : ℕ
deriving DecidableEq, Repr

/-- A `Case` document, reduced to what `createBilling` reads from it. -/
structure CaseRec where
  id : ℕ
  client : ℕ
deriving DecidableEq, Repr

/-- The database state touched by the billing core. -/
structure DB where
  cases : List CaseRec
  billings : List BillingRecord
  payments : List Payment
deriving DecidableEq, Repr

/-- Errors thrown by the controllers: `AppError(message, statusCode)`, plus
validator failures (`SimpleValidator` / mongoose `runValidators`). -/
inductive BErr where
  | validation (field : String)
  | appError (msg : String) (statusCode : ℕ)
deriving DecidableEq, Repr

/-- `BillingHistory.findById(id)`. -/
def findBilling (db : DB) (id : ℕ) : Option BillingRecord :=
  db.billings.find? (fun b => b.id == id)

/-- `Payment.aggregate([{ $match: { billing } }, { $group: { $sum: "$amount" } }])`,
with the `totalPaidData[0]?.total || 0` defaulting for the empty case. -/
def totalPaidFor (db : DB) (billingId : ℕ) : ℚ :=
  ((db.payments.filter (fun p => p.billing == billingId)).map Payment.amount).sum

/-! ### Payment ledger (`PaymentController.js`, part_008) -/

/-- The status written by `createPayment` (part_008 lines 46-58):
`let billingStatus = "partiallyPaid"; if (totalPaid === billing.grandTotal)
billingStatus = "paid"; else if (totalPaid > billing.grandTotal)
billingStatus = "overPaid";`. -/
def derivePaymentStatus (totalPaid grandTotal : ℚ) : String :=
  if totalPaid = grandTotal then "paid"
  else if totalPaid > grandTotal then "overPaid"
  else "partiallyPaid"

/-- The request body of `createPayment`. -/
structure PaymentInput where
  billingId : ℕ
  amount : ℚ
  date : Option Int
  note : Option String
  paymentMethod : String
  transactionId : Option String
  receipt : Option String
deriving DecidableEq, Repr

/-- Modelled from the spec: the `SimpleValidator` implementation
(`src/validator/simpleValidator.js`) is not part of the provided sources —
only its call sites are.  Per the spec, `createPayment` "validates amount > 0"
together with the required `date` and the `paymentMethod` enum visible in the
rule string `required|string|in:cash,bank_transfer,cheque,credit_card,other`. -/
def validatePaymentInput (inp : PaymentInput) : Bool :=
  decide (0 < inp.amount) && inp.date.isSome && paymentMethods.contains inp.paymentMethod

/-- `createPayment` (part_008 lines 11-70): validate, look the billing up
(404 when absent), persist the payment, re-aggregate the sum of ALL payments
for the billing, and `$set` the billing's status to the derived value.
An error result leaves the database untouched (every throw precedes the
writes in the source). -/
def createPayment (db : DB) (actor newId : ℕ) (inp : PaymentInput) :
    Except BErr (Payment × DB) :=
  if validatePaymentInput inp then
    match db.billings.find? (fun b => b.id == inp.billingId) with
    | none => .error (.appError "Billing not found" 404)
    | some billing =>
      let newPayment : Payment :=
        { id := newId, billing := inp.billingId, amount := inp.amount
          date := inp.date.getD 0, paymentMethod := inp.paymentMethod
          note := inp.note, transactionId := inp.transactionId
          receipt := inp.receipt, receivedBy := actor }
      let db1 : DB := { db with payments := db.payments ++ [newPayment] }
      let totalPaid := totalPaidFor db1 inp.billingId
      let billingStatus := derivePaymentStatus totalPaid billing.grandTotal
      let db2 : DB :=
        { db1 with
          billings := db1.billings.map (fun b =>
            if b.id == inp.billingId then { b with status := billingStatus } else b) }
      .ok (newPayment, db2)
  else .error (.validation "amount")

/-- The request body of `updatePayment` (all fields optional; mongoose drops
`undefined` keys from the update). -/
structure PaymentPatch where
  amount : Option ℚ
  date : Option Int
  note : Option String
  paymentMethod : Option String
  transactionId : Option String
  receipt : Option String
deriving DecidableEq, Repr

/-- Modelled from the spec: `SimpleValidator` semantics for the optional
`updatePayment` rules (`amount: "number|min:0.01"`, enum method) — a supplied
amount must be positive, a supplied method must be in the enum. -/
def validatePaymentPatch (patch : PaymentPatch) : Bool :=
  (match patch.amount with | some a => decide (0 < a) | none => true) &&
    (match patch.paymentMethod with | some m => paymentMethods.contains m | none => true)

/-- `updatePayment` (part_008 lines 95-120): `Payment.findByIdAndUpdate` of the
payment fields only; no billing document is read or written. -/
def updatePayment (db : DB) (paymentId : ℕ) (patch : PaymentPatch) :
    Except BErr (Payment × DB) :=
  if validatePaymentPatch patch then
    match db.payments.find? (fun p => p.id == paymentId) with
    | none => .error (.appError "Payment not found" 404)
    | some p =>
      let p' : Payment :=
        { p with
          amount := patch.amount.getD p.amount
          date := patch.date.getD p.date
          note := match patch.note with | some n => some n | none => p.note
          paymentMethod := patch.paymentMethod.getD p.paymentMethod
          transactionId :=
            match patch.transactionId with | some t => some t | none => p.transactionId
          receipt := match patch.receipt with | some r => some r | none => p.receipt }
      .ok (p', { db with
        payments := db.payments.map (fun q => if q.id == paymentId then p' else q) })
  else .error (.validation "amount")

/-- `deletePayment` (part_008 lines 125-138): `Payment.findByIdAndDelete`;
no billing document is read or written. -/
def deletePayment (db : DB) (paymentId : ℕ) : Except BErr DB :=
  match db.payments.find? (fun p => p.id == paymentId) with
  | none => .error (.appError "Payment not found" 404)
  | some _ => .ok { db with payments := db.payments.filter (fun p => !(p.id == paymentId)) }

/-! ### Sequence number generator (`src/services/BillingService.js`) -/

/-- `\d` of the `$regexFind` pattern. -/
def isDigitChar (c : Char) : Bool := decide (48 ≤ c.toNat ∧ c.toNat ≤ 57)

/-- The first contiguous digit run of a string (`$regexFind` with regex `\d+`);
empty when the string has no digit, which the pipeline then treats as the
default `"0"` — both parse to `0` below. -/
def firstDigitRun (s : List Char) : List Char :=
  (s.dropWhile (fun c => !(isDigitChar c))).takeWhile isDigitChar

/-- Decimal value of a most-significant-first digit string, unbounded. -/
def digitsToNat (l : List Char) : ℕ :=
  l.foldl (fun a c => 10 * a + (c.toNat - 48)) 0

/-- The largest 32-bit signed BSON `int`, the target type of
`$convert { to: "int" }`. -/
def int32Max : ℕ := 2147483647

/-- The integer the pipeline extracts from one `billNumber` value:
`$convert { input: run, to: "int", onError: 0, onNull: 0 }` — BSON `int` is
32-bit signed, so a digit run whose value exceeds 2147483647 fails the
conversion and yields the `onError` 0, just as a missing run yields the
`onNull` 0 (the empty run parses to 0 either way). -/
def parseBillNumber (s : List Char) : ℕ :=
  if digitsToNat (firstDigitRun s) ≤ int32Max then digitsToNat (firstDigitRun s) else 0

/-- Decimal digit to character, as in `Number.prototype.toString(10)`.
Only called with `d < 10`. -/
def decDigitChar (d : ℕ) : Char :=
  if d = 0 then '0' else if d = 1 then '1' else if d = 2 then '2'
  else if d = 3 then '3' else if d = 4 then '4' else if d = 5 then '5'
  else if d = 6 then '6' else if d = 7 then '7' else if d = 8 then '8' else '9'

/-- Most-significant-first decimal rendering, with explicit fuel so the
definition is structurally recursive (`fuel ≥ n` suffices). -/
def natToCharsAux : ℕ → ℕ → List Char
  | 0, _ => []
  | fuel + 1, n =>
    if n = 0 then [] else natToCharsAux fuel (n / 10) ++ [decDigitChar (n % 10)]

/-- `n.toString()` in base 10. -/
def natToChars (n : ℕ) : List Char :=
  if n = 0 then ['0'] else natToCharsAux n n

/-- `.padStart(6, "0")`. -/
def padStart6 (s : List Char) : List Char :=
  List.replicate (6 - s.length) '0' ++ s

/-- The `BILL-` prefix of `getNextBillingNumber`. -/
def billTag : List Char := ['B', 'I', 'L', 'L', '-']

/-- `getNextBillingNumber` (`src/services/BillingService.js` lines 3-46):
extract the first digit run of every existing `billNumber` and convert it to a
32-bit int (unparseable, missing, or out-of-int32-range values count as 0),
take the maximum, add one, and render it as `BILL-` followed by the number
zero-padded to 6 digits. -/
def getNextBillingNumber (existing : List (List Char)) : List Char :=
  let maxBillingNumber := (existing.map parseBillNumber).foldr max 0
  billTag ++ padStart6 (natToChars (maxBillingNumber + 1))

/-- `N` sequential calls of the generator starting from an empty collection,
each returned number persisted before the next call. -/
def genBillNumbers : ℕ → List (List Char)
  | 0 => []
  | n + 1 => genBillNumbers n ++ [getNextBillingNumber (genBillNumbers n)]

/-! ### Billing record manager (`BillingController.js`, part_007) -/

/-- The status string built by `updateBilling` (part_007 lines 846-857):
`let billingStatus = "partiallyPaid"; if (totalPaid === calculatedTotals?.grandTotal)
billingStatus = "paid"; else if (totalPaid > calculatedTotals?.grandTotal)
billingStatus = "overpaid";` — note the lowercase `"overpaid"`, which is not a
member of the schema's status enum. -/
def deriveUpdateStatus (totalPaid grandTotal : ℚ) : String :=
  if totalPaid = grandTotal then "paid"
  else if totalPaid > grandTotal then "overpaid"
  else "partiallyPaid"

/-- The request body of `updateBilling` (all fields optional; mongoose drops
`undefined` keys from the update). -/
structure BillingPatch where
  title : Option String
  billNumber : Option (List Char)
  note : Option String
  billingStart : Option Int
  billingEnd : Option Int
  dueDate : Option Int
  items : Option (List LineItem)
deriving DecidableEq, Repr

/-- The write phase of `updateBilling` (part_007 lines 828-879), reached after
the lookup and the time-based guard: recompute `calculatedTotals` from the new
items when supplied, keeping the zero-initialised accumulator otherwise;
derive the status from the existing payment sum against
`calculatedTotals.grandTotal`; and `findByIdAndUpdate` with
`runValidators: true`, which spreads `...calculatedTotals` unconditionally and
rejects a status outside the schema enum.  `updateBilling` below adds the
lookup (404 when absent) and the guard rejecting item edits on time-based
billings (400) — in JavaScript any supplied array, even `[]`, is truthy. -/
def applyBillingPatch (db : DB) (id : ℕ) (patch : BillingPatch) (billing : BillingRecord) :
    Except BErr (BillingRecord × DB) :=
  let calcd : Totals :=
        match patch.items with
        | some its => calculatedTotals its
        | none => initialTotals
      let totalPaid := totalPaidFor db id
      let billingStatus := deriveUpdateStatus totalPaid calcd.grandTotal
      if statusEnum.contains billingStatus then
        let updated : BillingRecord :=
          { billing with
            title := match patch.title with | some t => some t | none => billing.title
            billNumber := patch.billNumber.getD billing.billNumber
            note := match patch.note with | some n => some n | none => billing.note
            billingStart :=
              match patch.billingStart with | some d => some d | none => billing.billingStart
            billingEnd :=
              match patch.billingEnd with | some d => some d | none => billing.billingEnd
            dueDate := match patch.dueDate with | some d => some d | none => billing.dueDate
            items := patch.items.getD billing.items
            subTotal := calcd.subTotal
            tax := calcd.tax
            discount := calcd.discount
            grandTotal := calcd.grandTotal
            status := billingStatus }
        .ok (updated,
          { db with billings := db.billings.map (fun b => if b.id == id then updated else b) })
      else .error (.validation "status")

/-- `updateBilling` (part_007 lines 800-879): dispatch on the billing lookup
and the time-based guard, then apply the patch as above. -/
def updateBilling (db : DB) (id : ℕ) (patch : BillingPatch) :
    Except BErr (BillingRecord × DB) :=
  match db.billings.find? (fun b => b.id == id) with
  | none => .error (.appError "Billing not found" 404)
  | some billing =>
    if billing.billingType = "timeBased" ∧ patch.items.isSome then
      .error (.appError "Cannot update items for time-based billing" 400)
    else applyBillingPatch db id patch billing

/-- The request body of `createBilling`. -/
structure BillingInput where
  caseId : ℕ
  billingType : String
  title : Option String
  billNumber : Option (List Char)
  note : Option String
  billingStart : Option Int
  billingEnd : Option Int
  dueDate : Option Int
  items : List LineItem
deriving DecidableEq, Repr

/-- Modelled from the spec: `SimpleValidator` semantics for the `createBilling`
rules (`title: required`, `billingType: required|in:oneTime,milestone,timeBased`,
`billingStart`/`dueDate` required dates, `billingEnd: required_if:billingType,timeBased`). -/
def validateBillingInput (inp : BillingInput) : Bool :=
  inp.title.isSome &&
    ["oneTime", "milestone", "timeBased"].contains inp.billingType &&
    inp.billingStart.isSome && inp.dueDate.isSome &&
    (!(inp.billingType == "timeBased") || inp.billingEnd.isSome)

/-- The `billNumber` resolution of `createBilling` (part_007 lines 597-600):
`if (!billNumber) billNumber = await getNextBillingNumber();` — in JavaScript
the empty string is falsy too. -/
def resolveBillNumber (db : DB) (inp : BillingInput) : List Char :=
  match inp.billNumber with
  | some bn =>
    if bn = [] then getNextBillingNumber (db.billings.map BillingRecord.billNumber) else bn
  | none => getNextBillingNumber (db.billings.map BillingRecord.billNumber)

/-- `createBilling` (part_007 lines 573-648): validate, resolve the billing
number, reject 422 when it already exists (`BillingHistory.findOne`), look the
case up (404), run the totals reduce, and persist the record (status left to
the schema default `"unpaid"`). -/
def createBilling (db : DB) (actor newId : ℕ) (inp : BillingInput) :
    Except BErr (BillingRecord × DB) :=
  if validateBillingInput inp then
    let billNumber := resolveBillNumber db inp
    if db.billings.any (fun b => b.billNumber == billNumber) then
      .error (.appError "Billing number already exists" 422)
    else
      match db.cases.find? (fun c => c.id == inp.caseId) with
      | none => .error (.appError "Case not found" 404)
      | some caseData =>
        let calcd := calculatedTotals inp.items
        let newBilling : BillingRecord :=
          { id := newId, caseRef := inp.caseId, client := caseData.client
            billingType := inp.billingType, title := inp.title
            billNumber := billNumber, note := inp.note
            billingStart := inp.billingStart, billingEnd := inp.billingEnd
            dueDate := inp.dueDate, items := inp.items
            subTotal := calcd.subTotal, tax := calcd.tax, discount := calcd.discount
            grandTotal := calcd.grandTotal, paidAmount := 0
            createdBy := actor, status := "unpaid" }
        .ok (newBilling, { db with billings := db.billings ++ [newBilling] })
  else .error (.validation "billing")

/-! ### JavaScript value semantics for missing item fields -/

/-- A JavaScript value as it reaches the totals reduce: a finite number, `NaN`,
`undefined` (a missing request field), or a plain object (the legacy structured
`vat` shape of the `BillingHistory` schema, `vat: { type: Object }`). -/
inductive JSVal where
  | num (q : ℚ)
  | nan
  | undef
  | obj
deriving DecidableEq, Repr

/-- `ToNumber`: `undefined`, `NaN` and a plain object all convert to `NaN`
(`Number({})` is `NaN`), modelled as `none`. -/
def toNumber : JSVal → Option ℚ
  | .num q => some q
  | _ => none

/-- JavaScript `+` on numbers; `NaN` propagates. -/
def jsAdd : Option ℚ → Option ℚ → Option ℚ
  | some a, some b => some (a + b)
  | _, _ => none

/-- JavaScript `-` on numbers; `NaN` propagates. -/
def jsSub : Option ℚ → Option ℚ → Option ℚ
  | some a, some b => some (a - b)
  | _, _ => none

/-- JavaScript `*` on numbers; `NaN` propagates. -/
def jsMul : Option ℚ → Option ℚ → Option ℚ
  | some a, some b => some (a * b)
  | _, _ => none

/-- JavaScript `/ 100`; `NaN` propagates. -/
def jsDiv100 : Option ℚ → Option ℚ :=
  fun a => a.map (· / 100)

/-- A request line item as JavaScript sees it: any field may be missing
(`undef`) or, for `vat`, the legacy object shape. -/
structure JSItem where
  quantity : JSVal
  price : JSVal
  discount : JSVal
  vat : JSVal
deriving DecidableEq, Repr

/-- The reduce accumulator under JavaScript number semantics. -/
structure JSTotals where
  subTotal : Option ℚ
  tax : Option ℚ
  discount : Option ℚ
  grandTotal : Option ℚ
deriving DecidableEq, Repr

/-- One step of the `createBilling` reduce under JavaScript semantics:
the source reads `item.quantity * item.price` etc. without defaulting, so a
missing field enters the arithmetic as `undefined`. -/
def jsAddItem (acc : JSTotals) (item : JSItem) : JSTotals :=
  let itemTotal := jsMul (toNumber item.quantity) (toNumber item.price)
  let itemDiscount := jsDiv100 (jsMul itemTotal (toNumber item.discount))
  let itemVat := jsDiv100 (jsMul (jsSub itemTotal itemDiscount) (toNumber item.vat))
  { subTotal := jsAdd acc.subTotal itemTotal
    tax := jsAdd acc.tax itemVat
    discount := jsAdd acc.discount itemDiscount
    grandTotal := jsAdd acc.grandTotal (jsAdd (jsSub itemTotal itemDiscount) itemVat) }

/-- The `createBilling` reduce under JavaScript semantics, starting from the
all-zero accumulator. -/
def jsCalculatedTotals (items : List JSItem) : JSTotals :=
  items.foldl jsAddItem ⟨some 0, some 0, some 0, some 0⟩

/-! ### Status rank -/

/-- Position of a payment status along the
`unpaid → partiallyPaid → paid → overPaid` progression. -/
def statusRank : String → ℕ
  | "unpaid" => 0
  | "partiallyPaid" => 1
  | "paid" => 2
  | "overPaid" => 3
  | _ => 0

/-! ### Concrete fixtures for witnesses and failing inputs -/

/-- A billing record used by the `createPayment` witness: grand total 500,
no payments yet. -/
def exPayBilling : BillingRecord :=
  { id := 1, caseRef := 1, client := 11, billingType := "oneTime"
    title := some "Retainer", billNumber := ['B', 'I', 'L', 'L', '-', '0', '0', '0', '0', '0', '1']
    note := none, billingStart := some 0, billingEnd := none, dueDate := some 30
    items := [], subTotal := 500, tax := 0, discount := 0, grandTotal := 500
    paidAmount := 0, createdBy := 9, status := "unpaid" }

/-- Database for the `createPayment` witness. -/
def exPayDB : DB := { cases := [⟨1, 11⟩], billings := [exPayBilling], payments := [] }

/-- A valid `createPayment` request against `exPayBilling`. -/
def exPayInp : PaymentInput :=
  { billingId := 1, amount := 500, date := some 10, note := none
    paymentMethod := "cash", transactionId := none, receipt := none }

/-- A `createPayment` request with a non-positive amount. -/
def exPayInpNeg : PaymentInput :=
  { billingId := 1, amount := -5, date := some 10, note := none
    paymentMethod := "cash", transactionId := none, receipt := none }

/-- A valid `createPayment` request whose billing does not exist. -/
def exPayInpMissing : PaymentInput :=
  { billingId := 2, amount := 5, date := some 10, note := none
    paymentMethod := "cash", transactionId := none, receipt := none }

/-- A time-based billing record for the C4 witness. -/
def exTimeBilling : BillingRecord :=
  { exPayBilling with id := 2, billingType := "timeBased", billNumber := ['T'] }

/-- Database for the C4 witness. -/
def exTimeDB : DB := { cases := [⟨1, 11⟩], billings := [exTimeBilling], payments := [] }

/-- The line item of the C4 witness patch. -/
def exTimeItem : LineItem := { quantity := 1, price := 50, discount := 0, vat := 0 }

/-- A non-empty items patch for the C4 witness. -/
def exTimePatch : BillingPatch :=
  { title := none, billNumber := none, note := none, billingStart := none
    billingEnd := none, dueDate := none, items := some [exTimeItem] }

/-- The C3 billing: grand total 300 before the patch. -/
def exOverBilling : BillingRecord := { exPayBilling with grandTotal := 300 }

/-- The first recorded payment of the C3 fixture (100). -/
def exOverPay1 : Payment :=
  { id := 1, billing := 1, amount := 100, date := 0, paymentMethod := "cash"
    note := none, transactionId := none, receipt := none, receivedBy := 9 }

/-- The second recorded payment of the C3 fixture (250). -/
def exOverPay2 : Payment :=
  { id := 2, billing := 1, amount := 250, date := 1, paymentMethod := "cash"
    note := none, transactionId := none, receipt := none, receivedBy := 9 }

/-- C3 failing input: a billing whose payments sum to 350. -/
def exOverDB : DB :=
  { cases := [⟨1, 11⟩], billings := [exOverBilling], payments := [exOverPay1, exOverPay2] }

/-- The single line item of the C3 patch, worth 300. -/
def exOverItem : LineItem := { quantity := 1, price := 300, discount := 0, vat := 0 }

/-- C3 failing patch: new items worth a grand total of 300 (< 350 paid). -/
def exOverPatch : BillingPatch :=
  { title := none, billNumber := none, note := none, billingStart := none
    billingEnd := none, dueDate := none, items := some [exOverItem] }

/-- A request item with a missing `quantity` field. -/
def jsItemNoQuantity : JSItem :=
  { quantity := .undef, price := .num 100, discount := .num 0, vat := .num 0 }

/-- A request item whose `vat` has the legacy object shape. -/
def jsItemObjVat : JSItem :=
  { quantity := .num 2, price := .num 100, discount := .num 0, vat := .obj }

/-- A request item with every numeric field present. -/
def jsItemFull : JSItem :=
  { quantity := .num 2, price := .num 100, discount := .num 10, vat := .num 12 }

/-- C5 failing input: a billing with non-zero aggregates and no payments. -/
def exAggBilling : BillingRecord :=
  { exPayBilling with
    items := [{ quantity := 2, price := 100, discount := 10, vat := 12 }]
    subTotal := 200, tax := 108 / 5, discount := 20, grandTotal := 1008 / 5 }

/-- Database for the C5 failing input. -/
def exAggDB : DB := { cases := [⟨1, 11⟩], billings := [exAggBilling], payments := [] }

/-- C5 failing patch: a title-only update, no items. -/
def exAggPatch : BillingPatch :=
  { title := some "Retainer II", billNumber := none, note := none, billingStart := none
    billingEnd := none, dueDate := none, items := none }

/-- Database for the C6 witness: one billing whose number is `BILL-000001`. -/
def exNumDB : DB := { cases := [⟨1, 11⟩], billings := [exPayBilling], payments := [] }

/-- A `createBilling` request that supplies the already-taken number. -/
def exNumInp : BillingInput :=
  { caseId := 1, billingType := "oneTime", title := some "Again"
    billNumber := some ['B', 'I', 'L', 'L', '-', '0', '0', '0', '0', '0', '1']
    note := none, billingStart := some 0, billingEnd := none, dueDate := some 30
    items := [] }

/-- Database for the C10 witness: one payment against one billing. -/
def exLedgerDB : DB :=
  { cases := [⟨1, 11⟩]
    billings := [{ exPayBilling with status := "partiallyPaid" }]
    payments :=
      [{ id := 3, billing := 1, amount := 100, date := 0, paymentMethod := "cash"
         note := none, transactionId := none, receipt := none, receivedBy := 9 }] }

/-- The C10 patch: raise the payment amount to 200. -/
def exLedgerPatch : PaymentPatch :=
  { amount := some 200, date := none, note := none, paymentMethod := none
    transactionId := none, receipt := none }

/-- `exLedgerDB` after deleting payment 3. -/
def exLedgerDel : DB :=
  { cases := [⟨1, 11⟩]
    billings := [{ exPayBilling with status := "partiallyPaid" }]
    payments := [] }

/-- Payment 3 of `exLedgerDB` after applying `exLedgerPatch`. -/
def exLedgerP2 : Payment :=
  { id := 3, billing := 1, amount := 200, date := 0, paymentMethod := "cash"
    note := none, transactionId := none, receipt := none, receivedBy := 9 }

/-- `exLedgerDB` after `exLedgerPatch` on payment 3. -/
def exLedgerDB2 : DB :=
  { cases := [⟨1, 11⟩]
    billings := [{ exPayBilling with status := "partiallyPaid" }]
    payments := [exLedgerP2] }

/-! ### Lemmas about the sequence number generator -/

theorem isDigitChar_decDigitChar (d : ℕ) : isDigitChar (decDigitChar d) = true := by
  unfold decDigitChar
  split_ifs <;> decide

theorem toNat_decDigitChar (d : ℕ) (h : d < 10) : (decDigitChar d).toNat - 48 = d := by
  interval_cases d <;> rfl

theorem mem_natToCharsAux_isDigit (fuel n : ℕ) (c : Char)
    (hc : c ∈ natToCharsAux fuel n) : isDigitChar c = true := by
  induction fuel generalizing n with
  | zero => simp [natToCharsAux] at hc
  | succ fuel ih =>
    unfold natToCharsAux at hc
    by_cases hn : n = 0
    · simp [hn] at hc
    · simp only [hn, if_false, List.mem_append, List.mem_singleton] at hc
      rcases hc with hc | hc
      · exact ih _ hc
      · exact hc ▸ isDigitChar_decDigitChar _

theorem mem_natToChars_isDigit (n : ℕ) (c : Char) (hc : c ∈ natToChars n) :
    isDigitChar c = true := by
  unfold natToChars at hc
  by_cases hn : n = 0
  · simp [hn] at hc
    simp [hc, isDigitChar]
  · exact mem_natToCharsAux_isDigit n n c (by simpa [hn] using hc)

theorem mem_padStart6_isDigit (s : List Char) (h : ∀ c ∈ s, isDigitChar c = true)
    (c : Char) (hc : c ∈ padStart6 s) : isDigitChar c = true := by
  unfold padStart6 at hc
  rcases List.mem_append.mp hc with hc | hc
  · have := List.eq_of_mem_replicate hc
    simp [this, isDigitChar]
  · exact h c hc

theorem digitsToNat_append_singleton (l : List Char) (c : Char) :
    digitsToNat (l ++ [c]) = 10 * digitsToNat l + (c.toNat - 48) := by
  simp [digitsToNat, List.foldl_append]

theorem digitsToNat_natToCharsAux (fuel n : ℕ) (h : n ≤ fuel) :
    digitsToNat (natToCharsAux fuel n) = n := by
  induction fuel generalizing n with
  | zero =>
    interval_cases n
    rfl
  | succ fuel ih =>
    unfold natToCharsAux
    by_cases hn : n = 0
    · simp [hn, digitsToNat]
    · simp only [hn, if_false]
      rw [digitsToNat_append_singleton,
        ih (n / 10) (by omega),
        toNat_decDigitChar (n % 10) (Nat.mod_lt n (by norm_num))]
      omega

theorem digitsToNat_natToChars (n : ℕ) : digitsToNat (natToChars n) = n := by
  unfold natToChars
  by_cases hn : n = 0
  · simp [hn]
    rfl
  · simp only [hn, if_false]
    exact digitsToNat_natToCharsAux n n le_rfl

theorem foldl_digit_step_replicate_zero (k : ℕ) :
    (List.replicate k '0').foldl (fun a c => 10 * a + (c.toNat - 48)) 0 = 0 := by
  induction k with
  | zero => rfl
  | succ k ih => simpa [List.replicate_succ, List.foldl_cons] using ih

theorem digitsToNat_padStart6 (s : List Char) : digitsToNat (padStart6 s) = digitsToNat s := by
  unfold padStart6 digitsToNat
  rw [List.foldl_append, foldl_digit_step_replicate_zero]

theorem dropWhile_all_digits (s : List Char) (h : ∀ c ∈ s, isDigitChar c = true) :
    s.dropWhile (fun c => !(isDigitChar c)) = s := by
  cases s with
  | nil => rfl
  | cons a t =>
    have ha := h a (List.mem_cons_self a t)
    simp [List.dropWhile_cons, ha]

theorem takeWhile_all_digits (s : List Char) (h : ∀ c ∈ s, isDigitChar c = true) :
    s.takeWhile isDigitChar = s := by
  induction s with
  | nil => rfl
  | cons a t ih =>
    have ha := h a (List.mem_cons_self a t)
    simp only [List.takeWhile_cons, ha, if_true]
    rw [ih (fun c hc => h c (List.mem_cons_of_mem a hc))]

theorem firstDigitRun_billTag_append (s : List Char) (h : ∀ c ∈ s, isDigitChar c = true) :
    firstDigitRun (billTag ++ s) = s := by
  have hd : List.dropWhile (fun c => !(isDigitChar c)) (billTag ++ s) =
      List.dropWhile (fun c => !(isDigitChar c)) s := by
    simp only [billTag, List.cons_append, List.nil_append, List.dropWhile_cons]
    have hB : (!(isDigitChar 'B')) = true := by decide
    have hI : (!(isDigitChar 'I')) = true := by decide
    have hL : (!(isDigitChar 'L')) = true := by decide
    have hdash : (!(isDigitChar '-')) = true := by decide
    simp [hB, hI, hL, hdash]
  unfold firstDigitRun
  rw [hd, dropWhile_all_digits s h, takeWhile_all_digits s h]

theorem digitsToNat_firstDigitRun_generated (n : ℕ) :
    digitsToNat (firstDigitRun (billTag ++ padStart6 (natToChars n))) = n := by
  rw [firstDigitRun_billTag_append _
      (mem_padStart6_isDigit _ (mem_natToChars_isDigit n)),
    digitsToNat_padStart6, digitsToNat_natToChars]

theorem parseBillNumber_generated (n : ℕ) :
    parseBillNumber (billTag ++ padStart6 (natToChars n)) =
      if n ≤ int32Max then n else 0 := by
  unfold parseBillNumber
  rw [digitsToNat_firstDigitRun_generated]

theorem foldr_max_of_le (l : List ℕ) (a : ℕ) (h : ∀ x ∈ l, x ≤ a) :
    l.foldr max a = a := by
  induction l with
  | nil => rfl
  | cons x t ih =>
    simp only [List.foldr_cons]
    rw [ih (fun y hy => h y (List.mem_cons_of_mem x hy))]
    exact Nat.max_eq_right (h x (List.mem_cons_self x t))

theorem foldr_max_range_succ (N : ℕ) :
    ((List.range N).map (fun i => i + 1)).foldr max 0 = N := by
  induction N with
  | zero => rfl
  | succ N _ =>
    rw [List.range_succ, List.map_append, List.foldr_append, List.map_cons, List.map_nil,
      List.foldr_cons, List.foldr_nil]
    have hmax : max (N + 1) 0 = N + 1 := Nat.max_eq_left (Nat.zero_le _)
    rw [hmax]
    exact foldr_max_of_le _ _ (fun x hx => by
      rcases List.mem_map.mp hx with ⟨i, hi, rfl⟩
      have := List.mem_range.mp hi
      omega)

theorem genBillNumbers_eq_of_le (N : ℕ) (hN : N ≤ int32Max + 1) :
    genBillNumbers N = (List.range N).map (fun i => billTag ++ padStart6 (natToChars (i + 1))) := by
  induction N with
  | zero => rfl
  | succ N ih =>
    rw [genBillNumbers, ih (by omega), List.range_succ, List.map_append]
    congr 1
    simp only [List.map_cons, List.map_nil]
    congr 1
    unfold getNextBillingNumber
    rw [List.map_map]
    have hmap : List.map (parseBillNumber ∘ fun i => billTag ++ padStart6 (natToChars (i + 1)))
        (List.range N) = List.map (fun i => i + 1) (List.range N) := by
      refine List.map_congr_left (fun i hi => ?_)
      have hi' : i < N := List.mem_range.mp hi
      simp only [Function.comp_apply]
      rw [parseBillNumber_generated, if_pos (by omega)]
    rw [hmap, foldr_max_range_succ]

theorem genBillNumbers_nodup_of_le (N : ℕ) (hN : N ≤ int32Max + 1) :
    (genBillNumbers N).Nodup := by
  rw [genBillNumbers_eq_of_le N hN]
  refine List.Nodup.map ?_ (List.nodup_range N)
  intro i j hij
  have h := congrArg (fun s => digitsToNat (firstDigitRun s)) hij
  simp only at h
  rw [digitsToNat_firstDigitRun_generated, digitsToNat_firstDigitRun_generated] at h
  omega

/-- C7 (amended): up to N = 2147483648 — one past the largest 32-bit signed
BSON `int` — calling the billing sequence number generator `N` times
sequentially, persisting each returned number before the next call, starting
from an empty collection, yields exactly `BILL-` + (1 .. N each zero-padded to
6 digits) in order, with no duplicates and no gaps; and every single call
returns the prefix followed by one plus the maximum first-contiguous-digit-run
value, converted to a 32-bit int (missing, unparseable, or out-of-int32-range
runs counting as 0) over the existing numbers, zero-padded to 6 digits.
Beyond that bound the generator repeats itself (see the wraparound theorem
below). -/
theorem billingSequence_correct (N : ℕ) (hN : N ≤ int32Max + 1) :
    genBillNumbers N =
        (List.range N).map (fun i => billTag ++ padStart6 (natToChars (i + 1))) ∧
      (genBillNumbers N).Nodup ∧
      (∀ existing : List (List Char),
        getNextBillingNumber existing =
          billTag ++ padStart6 (natToChars ((existing.map parseBillNumber).foldr max 0 + 1))) :=
  ⟨genBillNumbers_eq_of_le N hN, genBillNumbers_nodup_of_le N hN, fun _ => rfl⟩

/-- Witness for `billingSequence_correct` at `N = 3`. -/
theorem billingSequence_correct_witness :
    (3 : ℕ) ≤ int32Max + 1 ∧
      (genBillNumbers 3 =
          (List.range 3).map (fun i => billTag ++ padStart6 (natToChars (i + 1))) ∧
        (genBillNumbers 3).Nodup ∧
        (∀ existing : List (List Char),
          getNextBillingNumber existing =
            billTag ++ padStart6 (natToChars ((existing.map parseBillNumber).foldr max 0 + 1)))) :=
  ⟨by norm_num [int32Max], billingSequence_correct 3 (by norm_num [int32Max])⟩

/-- C7 counterexample: the original unbounded-`N` claim fails at
`N = 2147483649`.  After 2147483648 calls the collection holds
`BILL-000001 .. BILL-2147483648`; the digit run of the last one exceeds the
32-bit `int` range, so `$convert`'s `onError` makes it parse as 0, the maximum
over the collection is still 2147483647, and call 2147483649 returns
`BILL-2147483648` again — a duplicate, so the generated list is not
duplicate-free. -/
theorem billingSequence_int32_wraparound :
    parseBillNumber (billTag ++ padStart6 (natToChars (int32Max + 1))) = 0 ∧
      getNextBillingNumber (genBillNumbers (int32Max + 1)) =
        billTag ++ padStart6 (natToChars (int32Max + 1)) ∧
      getNextBillingNumber (genBillNumbers (int32Max + 1)) ∈ genBillNumbers (int32Max + 1) ∧
      ¬ (genBillNumbers (int32Max + 2)).Nodup := by
  have hparse0 : parseBillNumber (billTag ++ padStart6 (natToChars (int32Max + 1))) = 0 := by
    rw [parseBillNumber_generated, if_neg (by omega)]
  have hgen : genBillNumbers (int32Max + 1) =
      (List.range (int32Max + 1)).map (fun i => billTag ++ padStart6 (natToChars (i + 1))) :=
    genBillNumbers_eq_of_le _ le_rfl
  have hmax : ((genBillNumbers (int32Max + 1)).map parseBillNumber).foldr max 0 = int32Max := by
    rw [hgen, List.map_map, List.range_succ, List.map_append, List.foldr_append]
    simp only [List.map_cons, List.map_nil, List.foldr_cons, List.foldr_nil,
      Function.comp_apply]
    rw [hparse0]
    have hmap : List.map (parseBillNumber ∘ fun i => billTag ++ padStart6 (natToChars (i + 1)))
        (List.range int32Max) = List.map (fun i => i + 1) (List.range int32Max) := by
      refine List.map_congr_left (fun i hi => ?_)
      have hi' : i < int32Max := List.mem_range.mp hi
      simp only [Function.comp_apply]
      rw [parseBillNumber_generated, if_pos (by omega)]
    rw [show (max 0 0) = 0 from rfl, hmap, foldr_max_range_succ]
  have hnext : getNextBillingNumber (genBillNumbers (int32Max + 1)) =
      billTag ++ padStart6 (natToChars (int32Max + 1)) := by
    unfold getNextBillingNumber
    rw [hmax]
  have hmem : getNextBillingNumber (genBillNumbers (int32Max + 1)) ∈
      genBillNumbers (int32Max + 1) := by
    rw [hnext, hgen]
    exact List.mem_map.mpr ⟨int32Max, List.mem_range.mpr (by omega), rfl⟩
  refine ⟨hparse0, hnext, hmem, fun hnodup => ?_⟩
  have hgen2 : genBillNumbers (int32Max + 2) =
      genBillNumbers (int32Max + 1) ++
        [getNextBillingNumber (genBillNumbers (int32Max + 1))] := rfl
  rw [hgen2] at hnodup
  exact (List.nodup_append.mp hnodup).2.2 hmem (List.mem_singleton_self _)

/-! ### Status ordering and payment ledger claims -/

theorem statusRank_derivePaymentStatus (s G : ℚ) :
    statusRank (derivePaymentStatus s G) = if G < s then 3 else if s = G then 2 else 1 := by
  unfold derivePaymentStatus
  rcases lt_trichotomy s G with h | h | h
  · rw [if_neg h.ne, if_neg (lt_asymm h), if_neg (lt_asymm h), if_neg h.ne]
    rfl
  · subst h
    rw [if_pos rfl, if_neg (lt_irrefl s), if_pos rfl]
    rfl
  · rw [if_neg h.ne', if_pos h, if_pos h]
    rfl

theorem statusRank_derive_le_three (s G : ℚ) :
    statusRank (derivePaymentStatus s G) ≤ 3 := by
  rw [statusRank_derivePaymentStatus]
  split_ifs <;> norm_num

theorem one_le_statusRank_derive (s G : ℚ) :
    1 ≤ statusRank (derivePaymentStatus s G) := by
  rw [statusRank_derivePaymentStatus]
  split_ifs <;> norm_num

theorem derivePaymentStatus_mono (s t G : ℚ) (h : s ≤ t) :
    statusRank (derivePaymentStatus s G) ≤ statusRank (derivePaymentStatus t G) := by
  by_cases hGt : G < t
  · rw [statusRank_derivePaymentStatus t G, if_pos hGt]
    exact statusRank_derive_le_three s G
  · by_cases hteq : t = G
    · rw [statusRank_derivePaymentStatus t G, if_neg hGt, if_pos hteq]
      rw [statusRank_derivePaymentStatus s G,
        if_neg (not_lt.mpr (hteq ▸ h))]
      split_ifs <;> norm_num
    · have htG : t < G := lt_of_le_of_ne (not_lt.mp hGt) hteq
      have hsG : s < G := lt_of_le_of_lt h htG
      rw [statusRank_derivePaymentStatus s G, if_neg (lt_asymm hsG), if_neg hsG.ne]
      exact one_le_statusRank_derive t G

theorem find?_map_setStatus (l : List BillingRecord) (i : ℕ) (st : String) :
    (l.map (fun b => if b.id == i then { b with status := st } else b)).find?
        (fun b => b.id == i) =
      (l.find? (fun b => b.id == i)).map (fun b => { b with status := st }) := by
  induction l with
  | nil => rfl
  | cons a t ih =>
    cases ha : (a.id == i) with
    | true =>
      simp only [List.map_cons, ha, if_true]
      rw [List.find?_cons_of_pos _ (by simpa using ha),
        List.find?_cons_of_pos _ (by simpa using ha)]
      rfl
    | false =>
      simp only [List.map_cons, ha, if_false]
      rw [List.find?_cons_of_neg _ (by simp [ha]),
        List.find?_cons_of_neg _ (by simp [ha])]
      exact ih

/-- C2: `createPayment` rejects non-positive amounts with a validation error,
rejects a missing billing with a 404, and otherwise persists the payment and
sets the parent billing's status from the sum of ALL payments recorded for
that billing against its `grandTotal` (`paid` on equality, `overPaid` above,
`partiallyPaid` otherwise); and the derived status never moves backward along
`unpaid → partiallyPaid → paid → overPaid` as the cumulative payment sum
grows. -/
theorem createPayment_correct (db : DB) (actor newId : ℕ) (inp : PaymentInput) :
    (inp.amount ≤ 0 → createPayment db actor newId inp = .error (.validation "amount")) ∧
      (validatePaymentInput inp = true → findBilling db inp.billingId = none →
        createPayment db actor newId inp = .error (.appError "Billing not found" 404)) ∧
      (∀ b : BillingRecord, validatePaymentInput inp = true →
        findBilling db inp.billingId = some b →
        ∃ np db2, createPayment db actor newId inp = .ok (np, db2) ∧
          np.amount = inp.amount ∧ np.billing = inp.billingId ∧
          db2.payments = db.payments ++ [np] ∧ db2.cases = db.cases ∧
          findBilling db2 inp.billingId = some { b with
            status := derivePaymentStatus (totalPaidFor db2 inp.billingId) b.grandTotal }) ∧
      (∀ s G : ℚ, 0 < s → statusRank "unpaid" ≤ statusRank (derivePaymentStatus s G)) ∧
      (∀ s t G : ℚ, s ≤ t →
        statusRank (derivePaymentStatus s G) ≤ statusRank (derivePaymentStatus t G)) := by
  refine ⟨?_, ?_, ?_, ?_, fun s t G h => derivePaymentStatus_mono s t G h⟩
  · intro h
    have hv : validatePaymentInput inp = false := by
      unfold validatePaymentInput
      simp [not_lt.mpr h]
    unfold createPayment
    simp [hv]
  · intro hv hf
    unfold createPayment
    unfold findBilling at hf
    simp [hv, hf]
  · intro b hv hf
    unfold createPayment
    unfold findBilling at hf
    simp only [hv, if_true, hf]
    refine ⟨_, _, rfl, rfl, rfl, rfl, rfl, ?_⟩
    unfold findBilling
    simp only
    rw [find?_map_setStatus, hf]
    rfl
  · intro s G _
    calc statusRank "unpaid" = 0 := rfl
      _ ≤ statusRank (derivePaymentStatus s G) := Nat.zero_le _

/-- Witness for `createPayment_correct` at concrete inputs: a −5 amount is
rejected, a missing billing 404s, and a full 500 payment against a 500 grand
total persists and re-derives the status. -/
theorem createPayment_correct_witness :
    createPayment exPayDB 9 5 exPayInpNeg = .error (.validation "amount") ∧
      createPayment exPayDB 9 5 exPayInpMissing = .error (.appError "Billing not found" 404) ∧
      (∃ np db2, createPayment exPayDB 9 5 exPayInp = .ok (np, db2) ∧
        np.amount = exPayInp.amount ∧ np.billing = exPayInp.billingId ∧
        db2.payments = exPayDB.payments ++ [np] ∧ db2.cases = exPayDB.cases ∧
        findBilling db2 exPayInp.billingId = some { exPayBilling with
          status := derivePaymentStatus (totalPaidFor db2 exPayInp.billingId)
            exPayBilling.grandTotal }) :=
  ⟨(createPayment_correct exPayDB 9 5 exPayInpNeg).1 (by decide),
   (createPayment_correct exPayDB 9 5 exPayInpMissing).2.1 (by decide) (by rfl),
   (createPayment_correct exPayDB 9 5 exPayInp).2.2.1 exPayBilling (by decide) (by rfl)⟩

/-- C4: `updateBilling` on a `timeBased` billing with a non-empty items patch
always fails with the 400 invalid-operation `AppError`; the throw precedes the
`findByIdAndUpdate`, so the stored items and every other stored field stay
unchanged (an error result carries no database write in this embedding). -/
theorem updateBilling_timeBased_rejected (db : DB) (id : ℕ) (patch : BillingPatch)
    (billing : BillingRecord) (l : List LineItem) (hf : findBilling db id = some billing)
    (htype : billing.billingType = "timeBased") (hitems : patch.items = some l)
    (_hne : l ≠ []) :
    updateBilling db id patch =
      .error (.appError "Cannot update items for time-based billing" 400) := by
  have hf2 : db.billings.find? (fun b => b.id == id) = some billing := hf
  simp only [updateBilling, hf2]
  rw [if_pos ⟨htype, by simp [hitems]⟩]

/-- Witness for `updateBilling_timeBased_rejected`. -/
theorem updateBilling_timeBased_rejected_witness :
    updateBilling exTimeDB 2 exTimePatch =
      .error (.appError "Cannot update items for time-based billing" 400) :=
  updateBilling_timeBased_rejected exTimeDB 2 exTimePatch exTimeBilling
    [exTimeItem] (by rfl) (by rfl) (by rfl) (by decide)

/-- C6: the billing number is the caller-supplied one when a non-empty value
is present, otherwise the generator's; and when the resolved number already
exists on some billing, `createBilling` fails with the 422 conflict error
before any write. -/
theorem createBilling_number_resolution (db : DB) (actor newId : ℕ) (inp : BillingInput) :
    (∀ bn, inp.billNumber = some bn → bn ≠ [] → resolveBillNumber db inp = bn) ∧
      (inp.billNumber = none → resolveBillNumber db inp =
        getNextBillingNumber (db.billings.map BillingRecord.billNumber)) ∧
      (validateBillingInput inp = true →
        (∃ b ∈ db.billings, b.billNumber = resolveBillNumber db inp) →
        createBilling db actor newId inp =
          .error (.appError "Billing number already exists" 422)) := by
  refine ⟨?_, ?_, ?_⟩
  · intro bn hbn hne
    unfold resolveBillNumber
    rw [hbn]
    simp [hne]
  · intro h
    unfold resolveBillNumber
    rw [h]
  · rintro hv ⟨b, hb, hnum⟩
    have hany : db.billings.any (fun c => c.billNumber == resolveBillNumber db inp) = true :=
      List.any_eq_true.mpr ⟨b, hb, beq_iff_eq.mpr hnum⟩
    unfold createBilling
    rw [if_pos hv]
    rw [if_pos hany]

/-- Witness for `createBilling_number_resolution`: supplying the taken number
`BILL-000001` resolves to itself and conflicts. -/
theorem createBilling_number_resolution_witness :
    resolveBillNumber exNumDB exNumInp =
        ['B', 'I', 'L', 'L', '-', '0', '0', '0', '0', '0', '1'] ∧
      createBilling exNumDB 9 7 exNumInp =
        .error (.appError "Billing number already exists" 422) :=
  ⟨(createBilling_number_resolution exNumDB 9 7 exNumInp).1 _ rfl (by decide),
   (createBilling_number_resolution exNumDB 9 7 exNumInp).2.2 (by decide)
     ⟨exPayBilling, by decide, by decide⟩⟩

/-- C10: `deletePayment` removes exactly the targeted payment and
`updatePayment` rewrites exactly that payment; in both cases the billing
collection — status, paidAmount and all aggregates included — and the case
collection are untouched: neither handler reads or writes a billing. -/
theorem paymentMutation_frame (db : DB) (paymentId : ℕ) (patch : PaymentPatch) :
    (∀ db2, deletePayment db paymentId = .ok db2 →
      db2.billings = db.billings ∧ db2.cases = db.cases ∧
      db2.payments = db.payments.filter (fun p => !(p.id == paymentId))) ∧
      (∀ p2 db2, updatePayment db paymentId patch = .ok (p2, db2) →
        db2.billings = db.billings ∧ db2.cases = db.cases ∧
        db2.payments = db.payments.map (fun q => if q.id == paymentId then p2 else q)) := by
  constructor
  · intro db2 h
    unfold deletePayment at h
    cases hf : db.payments.find? (fun p => p.id == paymentId) with
    | none => rw [hf] at h; simp at h
    | some p =>
      rw [hf] at h
      obtain rfl := (Except.ok.inj h).symm
      exact ⟨rfl, rfl, rfl⟩
  · intro p2 db2 h
    unfold updatePayment at h
    by_cases hv : validatePaymentPatch patch = true
    · rw [if_pos hv] at h
      cases hf : db.payments.find? (fun p => p.id == paymentId) with
      | none => rw [hf] at h; simp at h
      | some p =>
        rw [hf] at h
        have hpair := Except.ok.inj h
        obtain ⟨rfl, rfl⟩ : _ ∧ _ := by
          refine ⟨congrArg Prod.fst hpair, congrArg Prod.snd hpair⟩
        exact ⟨rfl, rfl, rfl⟩
    · rw [if_neg hv] at h
      simp at h

/-- Witness for `paymentMutation_frame`: deleting payment 3 leaves the billing
list intact and empties the ledger; patching payment 3 to 200 leaves the
billing list intact. -/
theorem paymentMutation_frame_witness :
    (exLedgerDel.billings = exLedgerDB.billings ∧ exLedgerDel.cases = exLedgerDB.cases ∧
      exLedgerDel.payments = exLedgerDB.payments.filter (fun p => !(p.id == 3))) ∧
      (exLedgerDB2.billings = exLedgerDB.billings ∧ exLedgerDB2.cases = exLedgerDB.cases ∧
        exLedgerDB2.payments =
          exLedgerDB.payments.map (fun q => if q.id == 3 then exLedgerP2 else q)) :=
  ⟨(paymentMutation_frame exLedgerDB 3 exLedgerPatch).1 exLedgerDel (by rfl),
   (paymentMutation_frame exLedgerDB 3 exLedgerPatch).2 exLedgerP2 exLedgerDB2 (by rfl)⟩

theorem updateBilling_eq_applyBillingPatch (db : DB) (id : ℕ) (patch : BillingPatch)
    (billing : BillingRecord) (hf : findBilling db id = some billing)
    (hguard : ¬(billing.billingType = "timeBased" ∧ patch.items.isSome = true)) :
    updateBilling db id patch = applyBillingPatch db id patch billing := by
  have hf2 : db.billings.find? (fun b => b.id == id) = some billing := hf
  simp only [updateBilling, hf2]
  rw [if_neg hguard]

/-- C3 (code bug): with 100 + 250 = 350 of recorded payments and a patch whose
items are worth a new grand total of 300, `updateBilling` builds the status
string `"overpaid"` — not a member of the `BillingHistory` schema enum (which
has `"overPaid"`) — so the `runValidators: true` update is rejected with a
validation error instead of persisting the `overPaid` status the spec
derives. -/
theorem updateBilling_overpaid_enum_bug :
    totalPaidFor exOverDB 1 = 350 ∧
      (calculatedTotals [exOverItem]).grandTotal = 300 ∧
      deriveUpdateStatus 350 300 = "overpaid" ∧
      statusEnum.contains "overpaid" = false ∧
      updateBilling exOverDB 1 exOverPatch = .error (.validation "status") := by
  have hsum : totalPaidFor exOverDB 1 = 350 := by
    simp only [totalPaidFor, exOverDB, exOverPay1, exOverPay2, List.filter_cons,
      List.filter_nil, List.map_cons, List.map_nil, List.sum_cons, List.sum_nil]
    norm_num
  have hcalc : (calculatedTotals [exOverItem]).grandTotal = 300 := by
    rw [calculatedTotals_eq_specTotals]
    simp only [specTotals, exOverItem, itemAmountSpec, itemVatSpec, itemDiscountSpec,
      itemTotalSpec, List.map_cons, List.map_nil, List.sum_cons, List.sum_nil]
    norm_num
  have hstat : deriveUpdateStatus 350 300 = "overpaid" := by
    unfold deriveUpdateStatus
    norm_num
  have henum : statusEnum.contains "overpaid" = false := by rfl
  refine ⟨hsum, hcalc, hstat, henum, ?_⟩
  rw [updateBilling_eq_applyBillingPatch exOverDB 1 exOverPatch exOverBilling (by rfl)
      (fun h => absurd h.1 (by decide))]
  simp only [applyBillingPatch, exOverPatch]
  rw [hsum, hcalc, hstat]
  rw [if_neg (by rw [henum]; exact Bool.false_ne_true)]

/-- C5 (code bug): a title-only `updateBilling` (no items in the patch)
spreads the zero-initialised `calculatedTotals` into the update, wiping the
stored aggregates (1008/5 grand total becomes 0) and flipping the status to
`"paid"` (0 paid equals the new 0 grand total), instead of leaving the
aggregates unchanged. -/
theorem updateBilling_zeroes_aggregates_bug :
    exAggBilling.grandTotal = 1008 / 5 ∧ exAggPatch.items = none ∧
      (updateBilling exAggDB 1 exAggPatch).toOption.map
          (fun r => (r.1.subTotal, r.1.tax, r.1.discount, r.1.grandTotal, r.1.status)) =
        some (0, 0, 0, 0, "paid") := by
  refine ⟨rfl, rfl, ?_⟩
  rw [updateBilling_eq_applyBillingPatch exAggDB 1 exAggPatch exAggBilling (by rfl)
      (fun h => absurd h.1 (by decide))]
  rfl

/-- C9 (code bug): the reduce does not default missing numeric fields — an
item without `quantity` drives every aggregate to `NaN`, and the legacy
object-shaped `vat` drives `tax` to `NaN`; with all fields numeric the
aggregates are finite and match the exact-rational calculator. -/
theorem totals_nan_on_missing_fields :
    (jsCalculatedTotals [jsItemNoQuantity]).grandTotal = none ∧
      (jsCalculatedTotals [jsItemObjVat]).tax = none ∧
      (jsCalculatedTotals [jsItemFull]).grandTotal = some (1008 / 5) := by
  refine ⟨rfl, rfl, ?_⟩
  simp only [jsCalculatedTotals, jsItemFull, List.foldl_cons, List.foldl_nil, jsAddItem,
    toNumber, jsMul, jsSub, jsDiv100, jsAdd, Option.map]
  norm_num

end BDB
